import Mathlib

/-!
Verification development for the `AzureOpenAILLM` adapter
(`src/canopy/llm/azure_openai_llm.py`).

The development shallowly embeds the adapter: JSON values and the behaviour
of `json.loads`, a model of `jsonschema.validate`, the request the adapter
builds, the response processing of `enforced_function_call`, and the
constructor's environment-variable resolution.
-/

set_option maxRecDepth 10000

namespace Canopy

/-- Model of a Python JSON value as produced by `json.loads`. Numbers are kept
exactly as a decimal mantissa and a power-of-ten exponent (`m * 10 ^ e`);
Python additionally distinguishes `int` from `float`, which none of the
verified properties observe. `nan` and `infinity` model the non-standard
`NaN` / `Infinity` / `-Infinity` literals Python's `json.loads` accepts. -/
inductive Json where
  | null : Json
  | bool (b : Bool) : Json
  | num (mantissa : Int) (exp10 : Int) : Json
  | str (s : String) : Json
  | arr (elems : List Json) : Json
  | obj (fields : List (String × Json)) : Json
  | nan : Json
  | infinity (negative : Bool) : Json

/-- First-match association-list lookup, modelling Python `dict` access on the
association lists this development uses to represent dictionaries. -/
def alookup {α : Type} : List (String × α) → String → Option α
  | [], _ => Option.none
  | (k0, v0) :: rest, k => if k0 = k then some v0 else alookup rest k

/-- Key membership in an association list. -/
def containsKey {α : Type} (l : List (String × α)) (k : String) : Bool :=
  match alookup l k with
  | some _ => true
  | Option.none => false

/-- Single-key assignment `d[k] = v` of Python `dict` semantics: replace the
binding if the key is present, otherwise append the new binding at the end
(Python dicts preserve insertion order). -/
def dictInsert {α : Type} : List (String × α) → String → α → List (String × α)
  | [], k, v => [(k, v)]
  | (k0, v0) :: rest, k, v =>
    if k0 = k then (k, v) :: rest else (k0, v0) :: dictInsert rest k v

/-- Model of Python `d.update(o)`: assign every binding of `o` into `d`, in
order, overriding values of keys already present. -/
def dictUpdate {α : Type} (d o : List (String × α)) : List (String × α) :=
  o.foldl (fun acc p => dictInsert acc p.1 p.2) d

/-! JSON text: a model of `json.loads` (CPython's strict JSON grammar),
written as a fuel-indexed recursive-descent reader over the character list so
every run is kernel-evaluable. -/

/-- Whitespace skipping of the JSON grammar (space, tab, newline, return). -/
def skipWs : List Char → List Char
  | c :: cs =>
    if c = ' ' ∨ c = '\t' ∨ c = '\n' ∨ c = '\r' then skipWs cs else c :: cs
  | [] => []

/-- Value of one hexadecimal digit, for `\uXXXX` escapes. -/
def hexVal (c : Char) : Option Nat :=
  if '0' ≤ c ∧ c ≤ '9' then some (c.toNat - 48)
  else if 'a' ≤ c ∧ c ≤ 'f' then some (c.toNat - 87)
  else if 'A' ≤ c ∧ c ≤ 'F' then some (c.toNat - 55)
  else Option.none

/-- Single-character JSON string escapes. -/
def escChar : Char → Option Char
  | '"' => some '"'
  | '\\' => some '\\'
  | '/' => some '/'
  | 'b' => some (Char.ofNat 8)
  | 'f' => some (Char.ofNat 12)
  | 'n' => some (Char.ofNat 10)
  | 'r' => some (Char.ofNat 13)
  | 't' => some (Char.ofNat 9)
  | _ => Option.none

/-- Reads the body of a JSON string after the opening quote, returning the
decoded characters and the input remaining after the closing quote. Raw
control characters are rejected, as by Python's strict decoder. -/
def parseStringChars : List Char → Option (List Char × List Char)
  | [] => Option.none
  | '"' :: cs => some ([], cs)
  | '\\' :: 'u' :: h1 :: h2 :: h3 :: h4 :: cs =>
    (match hexVal h1, hexVal h2, hexVal h3, hexVal h4 with
     | some a, some b, some c, some d =>
       (parseStringChars cs).map
         (fun p => (Char.ofNat (((a * 16 + b) * 16 + c) * 16 + d) :: p.1, p.2))
     | _, _, _, _ => Option.none)
  | '\\' :: e :: cs =>
    (match escChar e with
     | some ch => (parseStringChars cs).map (fun p => (ch :: p.1, p.2))
     | Option.none => Option.none)
  | c :: cs =>
    if c.toNat < 32 then Option.none
    else (parseStringChars cs).map (fun p => (c :: p.1, p.2))

/-- Longest digit prefix of the input, and the rest. -/
def takeDigits : List Char → List Char × List Char
  | [] => ([], [])
  | c :: cs =>
    if c.isDigit then
      let p := takeDigits cs
      (c :: p.1, p.2)
    else ([], c :: cs)

/-- Numeric value of a digit list. -/
def digitsVal (ds : List Char) : Nat :=
  ds.foldl (fun a c => a * 10 + (c.toNat - 48)) 0

/-- Fractional part of a JSON number: a dot must be followed by at least one
digit; absence of a dot yields an empty fraction. -/
def parseFrac : List Char → Option (List Char × List Char)
  | '.' :: rest =>
    let p := takeDigits rest
    if p.1.isEmpty then Option.none else some (p.1, p.2)
  | cs => some ([], cs)

/-- Exponent part of a JSON number (optional `e`/`E`, optional sign, digits). -/
def parseExp : List Char → Option (Int × List Char)
  | [] => some (0, [])
  | c :: rest =>
    if c = 'e' ∨ c = 'E' then
      let sr : Int × List Char :=
        match rest with
        | '+' :: r => (1, r)
        | '-' :: r => (-1, r)
        | r => (1, r)
      let p := takeDigits sr.2
      if p.1.isEmpty then Option.none
      else some (sr.1 * (digitsVal p.1 : Int), p.2)
    else some (0, c :: rest)

/-- Reads a JSON number per the strict grammar (`-? int frac? exp?`, no
leading zeros), returning it as mantissa and power-of-ten exponent. -/
def parseNumber (cs : List Char) : Option (Json × List Char) :=
  let sr : Bool × List Char :=
    match cs with
    | '-' :: rest => (true, rest)
    | _ => (false, cs)
  let ip := takeDigits sr.2
  if ip.1.isEmpty then Option.none
  else if 1 < ip.1.length ∧ ip.1.head? = some '0' then Option.none
  else
    match parseFrac ip.2 with
    | Option.none => Option.none
    | some (fds, cs3) =>
      match parseExp cs3 with
      | Option.none => Option.none
      | some (ex, cs4) =>
        let mAbs : Int := (digitsVal ip.1 : Int) * (10 : Int) ^ fds.length + (digitsVal fds : Int)
        let m : Int := if sr.1 then -mAbs else mAbs
        some (Json.num m (ex - (fds.length : Int)), cs4)

/-- Reader mode: a single value, the remaining items of an array whose first
item has not yet been read, or the remaining members of an object. -/
inductive PMode where
  | value : PMode
  | arrayItems (acc : List Json) : PMode
  | objItems (acc : List (String × Json)) : PMode

/-- Core JSON reader. The fuel only bounds recursion depth so the function is
structurally recursive; `pyJsonLoads` supplies fuel ample for its input. -/
def parseCore : Nat → PMode → List Char → Option (Json × List Char)
  | 0, _, _ => Option.none
  | Nat.succ fuel, PMode.value, cs =>
    (match skipWs cs with
     | '"' :: rest => (parseStringChars rest).map (fun p => (Json.str (String.mk p.1), p.2))
     | '[' :: rest =>
       (match skipWs rest with
        | ']' :: rest2 => some (Json.arr [], rest2)
        | _ => parseCore fuel (PMode.arrayItems []) rest)
     | '{' :: rest =>
       (match skipWs rest with
        | '}' :: rest2 => some (Json.obj [], rest2)
        | _ => parseCore fuel (PMode.objItems []) rest)
     | 't' :: 'r' :: 'u' :: 'e' :: rest => some (Json.bool true, rest)
     | 'f' :: 'a' :: 'l' :: 's' :: 'e' :: rest => some (Json.bool false, rest)
     | 'n' :: 'u' :: 'l' :: 'l' :: rest => some (Json.null, rest)
     | 'N' :: 'a' :: 'N' :: rest => some (Json.nan, rest)
     | 'I' :: 'n' :: 'f' :: 'i' :: 'n' :: 'i' :: 't' :: 'y' :: rest =>
       some (Json.infinity false, rest)
     | '-' :: 'I' :: 'n' :: 'f' :: 'i' :: 'n' :: 'i' :: 't' :: 'y' :: rest =>
       some (Json.infinity true, rest)
     | rest => parseNumber rest)
  | Nat.succ fuel, PMode.arrayItems acc, cs =>
    (match parseCore fuel PMode.value cs with
     | Option.none => Option.none
     | some (v, rest) =>
       match skipWs rest with
       | ',' :: rest2 => parseCore fuel (PMode.arrayItems (acc ++ [v])) rest2
       | ']' :: rest2 => some (Json.arr (acc ++ [v]), rest2)
       | _ => Option.none)
  | Nat.succ fuel, PMode.objItems acc, cs =>
    (match skipWs cs with
     | '"' :: rest =>
       (match parseStringChars rest with
        | Option.none => Option.none
        | some (kcs, rest2) =>
          match skipWs rest2 with
          | ':' :: rest3 =>
            (match parseCore fuel PMode.value rest3 with
             | Option.none => Option.none
             | some (v, rest4) =>
               match skipWs rest4 with
               | ',' :: rest5 => parseCore fuel (PMode.objItems (acc ++ [(String.mk kcs, v)])) rest5
               | '}' :: rest5 => some (Json.obj (acc ++ [(String.mk kcs, v)]), rest5)
               | _ => Option.none)
          | _ => Option.none)
     | _ => Option.none)

/-- Model of Python `json.loads`: reads exactly one JSON value and requires
the rest of the input to be whitespace (`Extra data` otherwise). `none`
models the `json.JSONDecodeError` the library raises. -/
def pyJsonLoads (s : String) : Option Json :=
  let cs := s.data
  match parseCore (2 * cs.length + 8) PMode.value cs with
  | some (j, rest) => if (skipWs rest).isEmpty then some j else Option.none
  | Option.none => Option.none

/-! Model of `jsonschema.validate`, the library call on line 162 of the
source. The modelled keyword set is the one the adapter's function schemas
exercise per the spec: `type` (including lists of type names), `required`
and `properties` for objects, and `items` for arrays; unknown keywords are
ignored, as JSON Schema prescribes. -/

/-- Field access on a JSON object; `none` on other values or absent keys. -/
def Json.getField : Json → String → Option Json
  | Json.obj fields, k => alookup fields k
  | _, _ => Option.none

/-- Whether a JSON number with the given mantissa and exponent denotes a
mathematical integer, as JSON Schema's `integer` type requires. -/
def isIntegerNum (m e : Int) : Bool :=
  0 ≤ e || m % ((10 : Int) ^ (-e).toNat) == 0

/-- JSON Schema primitive type test. Booleans are not numbers, matching the
`jsonschema` library's Python type checks. -/
def typeMatches (t : String) (j : Json) : Bool :=
  match j with
  | Json.obj _ => t = "object"
  | Json.arr _ => t = "array"
  | Json.str _ => t = "string"
  | Json.bool _ => t = "boolean"
  | Json.null => t = "null"
  | Json.num m e => t = "number" || (t = "integer" && isIntegerNum m e)
  | Json.nan => t = "number"
  | Json.infinity _ => t = "number"

/-- The `type` keyword: a single type name or a list of admissible names. -/
def typeKeywordOk (schema j : Json) : Bool :=
  match Json.getField schema "type" with
  | some (Json.str t) => typeMatches t j
  | some (Json.arr ts) =>
    ts.any (fun t =>
      match t with
      | Json.str s => typeMatches s j
      | _ => false)
  | _ => true

/-- The `required` keyword: every listed property name must be present when
the instance is an object; other instances pass vacuously. -/
def requiredKeywordOk (schema j : Json) : Bool :=
  match Json.getField schema "required", j with
  | some (Json.arr rs), Json.obj fields =>
    rs.all (fun r =>
      match r with
      | Json.str s => containsKey fields s
      | _ => true)
  | _, _ => true

/-- Validator mode: one schema/instance pair, the properties of an object
against a `properties` map, or array elements against an `items` schema. -/
inductive VMode where
  | single (schema : Json) (j : Json) : VMode
  | props (props : List (String × Json)) (fields : List (String × Json)) : VMode
  | items (schema : Json) (elems : List Json) : VMode

/-- Core schema validator. Fuel only bounds recursion depth so the function
is structurally recursive; callers supply fuel ample for the instance. -/
def validateCore : Nat → VMode → Bool
  | 0, _ => false
  | Nat.succ fuel, VMode.single schema j =>
    typeKeywordOk schema j && requiredKeywordOk schema j &&
    (match Json.getField schema "properties", j with
     | some (Json.obj props), Json.obj fields => validateCore fuel (VMode.props props fields)
     | _, _ => true) &&
    (match Json.getField schema "items", j with
     | some isch, Json.arr xs => validateCore fuel (VMode.items isch xs)
     | _, _ => true)
  | Nat.succ fuel, VMode.props props fields =>
    (match fields with
     | [] => true
     | (k, v) :: rest =>
       (match alookup props k with
        | some ps => validateCore fuel (VMode.single ps v)
        | Option.none => true) &&
       validateCore fuel (VMode.props props rest))
  | Nat.succ fuel, VMode.items isch elems =>
    (match elems with
     | [] => true
     | x :: rest =>
       validateCore fuel (VMode.single isch x) &&
       validateCore fuel (VMode.items isch rest))

/-- Model of `jsonschema.validate(instance, schema)`: `true` means the call
returns normally, `false` that it raises `ValidationError`. -/
def jsonschemaValidate (fuel : Nat) (schema j : Json) : Bool :=
  validateCore fuel (VMode.single schema j)

/-! Data model of the adapter's inputs. -/

/-- Modelled from the spec: `canopy.models.data_models.Messages` is not under
`src/`; a message is a role-tagged conversational turn with text content. -/
structure Message where
  role : String
  content : String

/-- Modelled from the spec: `Message.dict()` serializes one turn into the
wire representation the remote service expects (role + content). -/
def Message.dict (m : Message) : List (String × Json) :=
  [("role", Json.str m.role), ("content", Json.str m.content)]

/-- Modelled from the spec: `canopy.llm.models.Function` is not under `src/`;
a FunctionDescriptor is a name, a description, and a JSON-Schema-compatible
parameter schema. `parameters` holds the schema exactly as
`function.parameters.dict()` on line 162 of the source produces it. -/
structure Function where
  name : String
  description : String
  parameters : Json

/-- Modelled from the spec: `function.dict()` on line 153 of the source, the
interface descriptor sent to the service (name, description, schema). -/
def Function.dict (f : Function) : List (String × Json) :=
  [("name", Json.str f.name), ("description", Json.str f.description),
   ("parameters", f.parameters)]

/-- The forced-call directive of line 139: `{"name": function.name}`. -/
structure FunctionCallDirective where
  name : String
deriving DecidableEq

/-- The keyword arguments of the `chat.completions.create` call on lines
150-157: the outbound request the adapter sends to the remote service. -/
structure ChatRequest where
  model : String
  messages : List (List (String × Json))
  functions : List (List (String × Json))
  function_call : FunctionCallDirective
  max_tokens : Option Int
  params : List (String × Json)

/-- The structured function-call payload of a response message: the called
function's name and its arguments as a JSON-encoded string. -/
structure FunctionCallPayload where
  name : String
  arguments : String

/-- A response choice's message. `function_call` is `none` when the service
responded with free text instead of a structured call (Python `None`). -/
structure ResponseMessage where
  function_call : Option FunctionCallPayload

/-- One completion choice of a service response. -/
structure Choice where
  message : ResponseMessage

/-- A chat-completion response from the remote service. -/
structure ChatCompletion where
  choices : List Choice

/-- Configuration stored in the `AzureOpenAI` client constructed on lines
85-90: exactly the four values the constructor passes to it. -/
structure AzureClientConfig where
  azure_deployment : Option String
  azure_endpoint : Option String
  api_version : Option String
  api_key : Option String
deriving DecidableEq

/-- The adapter's state: the model name set by `super().__init__` (the parent
class is not under `src/`; per the spec it only records the model name), the
constructed client, and the default model parameters of line 91. -/
structure AzureOpenAILLM where
  model_name : String
  client : AzureClientConfig
  default_model_params : List (String × Json)

/-! Constructor (`AzureOpenAILLM.__init__`, lines 35-91). -/

/-- A value held by `os.environ`. At the Python level an environment mapping
can only hold strings, but the source compares looked-up values against
`None`, so the model keeps `None` representable and states the always-string
fact as a hypothesis where needed. -/
inductive PyVal where
  | none : PyVal
  | str (s : String) : PyVal
deriving DecidableEq

/-- Python `x is None` on an environment value. -/
def PyVal.isNone : PyVal → Bool
  | PyVal.none => true
  | PyVal.str _ => false

/-- Errors the constructor can raise. -/
inductive PyError where
  | keyError (key : String)
  | environmentError (msg : String)
deriving DecidableEq

/-- Python `os.environ[k]`: raises `KeyError(k)` when the variable is absent,
otherwise returns its value. -/
def environGetItem (env : List (String × PyVal)) (k : String) : Except PyError PyVal :=
  match alookup env k with
  | some v => Except.ok v
  | Option.none => Except.error (PyError.keyError k)

/-- Python `os.getenv(k)`: `None` when the variable is absent. -/
def osGetenv (env : List (String × PyVal)) (k : String) : PyVal :=
  match alookup env k with
  | some v => v
  | Option.none => PyVal.none

/-- Message of the `EnvironmentError` raised on lines 61-64 (text shortened;
it names the `AZURE_OPENAI_API_KEY` variable and a documentation pointer). -/
def apiKeyMsg : String :=
  "Please set your Azure OpenAI API key environment variable (export AZURE_OPENAI_API_KEY=<your azure openai api key>). See https://learn.microsoft.com/en-us/azure/ai-services/openai/quickstart"

/-- Message of the `EnvironmentError` raised on lines 67-69. -/
def endpointMsg : String :=
  "Please set your Azure OpenAI endpoint environment variable (export AZURE_OPENAI_ENDPOINT=<your endpoint>). See https://learn.microsoft.com/en-us/azure/ai-services/openai/quickstart"

/-- Message of the `EnvironmentError` raised on lines 72-75. -/
def versionMsg : String :=
  "Please set your Azure OpenAI API version. (export OPENAI_API_VERSION=<your API version>). See https://learn.microsoft.com/en-us/azure/ai-services/openai/quickstart"

/-- Message of the `EnvironmentError` raised on lines 79-80. -/
def deploymentMsg : String :=
  "You need to set an environment variable for AZURE_DEPLOYMENT to the name of your Azure deployment"

/-- Statement-by-statement embedding of `AzureOpenAILLM.__init__` (lines
35-91). Each of the first three blocks indexes `os.environ` directly (a
`KeyError` when the variable is absent) and only then compares the obtained
value against `None`; the deployment block instead checks the explicit
argument first and falls back to `os.getenv`. The module-global assignment
`openai.api_type = "azure"` touches no adapter state and is omitted. The
`AzureOpenAI` client is only constructed, and hence an adapter value only
produced, when no check raised. -/
def AzureOpenAILLM.init (env : List (String × PyVal)) (model_name : String)
    (azure_deployment azure_endpoint azure_api_version azure_api_key : Option String)
    (kwargs : List (String × Json)) : Except PyError AzureOpenAILLM :=
  match environGetItem env "AZURE_OPENAI_API_KEY" with
  | Except.error e => Except.error e
  | Except.ok v1 =>
    if v1.isNone then Except.error (PyError.environmentError apiKeyMsg)
    else
      match environGetItem env "AZURE_OPENAI_ENDPOINT" with
      | Except.error e => Except.error e
      | Except.ok v2 =>
        if v2.isNone then Except.error (PyError.environmentError endpointMsg)
        else
          match environGetItem env "OPENAI_API_VERSION" with
          | Except.error e => Except.error e
          | Except.ok v3 =>
            if v3.isNone then Except.error (PyError.environmentError versionMsg)
            else
              match azure_deployment with
              | Option.none =>
                (match osGetenv env "AZURE_DEPLOYMENT" with
                 | PyVal.none => Except.error (PyError.environmentError deploymentMsg)
                 | PyVal.str s =>
                   Except.ok
                     { model_name := model_name
                       client :=
                         { azure_deployment := some s
                           azure_endpoint := azure_endpoint
                           api_version := azure_api_version
                           api_key := azure_api_key }
                       default_model_params := kwargs })
              | some d =>
                Except.ok
                  { model_name := model_name
                    client :=
                      { azure_deployment := some d
                        azure_endpoint := azure_endpoint
                        api_version := azure_api_version
                        api_key := azure_api_key }
                    default_model_params := kwargs }

/-! The `enforced_function_call` method (lines 93-163). -/

/-- Lines 141-146: the merged generation parameters. A fresh dict is filled
with the stored defaults, then, when `model_params` is truthy (not `None`
and not the empty dict), updated with the per-call overrides. -/
def mergedParams (self : AzureOpenAILLM)
    (model_params : Option (List (String × Json))) : List (String × Json) :=
  let model_params_dict := dictUpdate [] self.default_model_params
  match model_params with
  | Option.none => model_params_dict
  | some mp => if mp.isEmpty then model_params_dict else dictUpdate model_params_dict mp

/-- Lines 139 and 148-157: the request `enforced_function_call` sends.
`function_call` is the forced-call directive of line 139, `functions` the
single-element descriptor list of line 153, `messages` the serialized
history of line 148, and `params` the merged parameters of lines 141-146. -/
def buildRequest (self : AzureOpenAILLM) (messages : List Message)
    (function : Function) (max_tokens : Option Int)
    (model_params : Option (List (String × Json))) : ChatRequest :=
  { model := self.model_name
    messages := messages.map Message.dict
    functions := [function.dict]
    function_call := { name := function.name }
    max_tokens := max_tokens
    params := mergedParams self model_params }

/-- Errors `enforced_function_call` can raise after the service responded:
`indexError` for `choices[0]` on an empty list (line 159), `attributeError`
for `.arguments` on a `None` function call (line 160), `jsonDecodeError`
from `json.loads` (line 160; the spec's MalformedResponseError), and
`validationError` from `jsonschema.validate` (line 162; the spec's
SchemaValidationError). -/
inductive EnforceError where
  | indexError
  | attributeError
  | jsonDecodeError
  | validationError
deriving DecidableEq

/-- Lines 159-163: take the first choice's function call, decode its
arguments string as JSON, validate the decoded value against the function's
parameter schema, and return it. The validator fuel `2 * length + 8` covers
any value whose nesting depth is bounded by the length of the text it was
decoded from, which holds of every `json.loads` result. -/
def processResponse (function : Function) (chat_completion : ChatCompletion) :
    Except EnforceError Json :=
  match chat_completion.choices with
  | [] => Except.error EnforceError.indexError
  | choice :: _ =>
    match choice.message.function_call with
    | Option.none => Except.error EnforceError.attributeError
    | some result =>
      match pyJsonLoads result.arguments with
      | Option.none => Except.error EnforceError.jsonDecodeError
      | some arguments =>
        if jsonschemaValidate (2 * result.arguments.length + 8) function.parameters arguments
        then Except.ok arguments
        else Except.error EnforceError.validationError

/-- The `enforced_function_call` method (lines 93-163). The remote service
is the external collaborator `service`; the method sends it exactly
`buildRequest self messages function max_tokens model_params` (its single
outbound call) and processes the response. The adapter state is threaded
explicitly: the source assigns only local variables, so the returned state
is the input state. -/
def enforced_function_call (self : AzureOpenAILLM)
    (service : ChatRequest → ChatCompletion) (messages : List Message)
    (function : Function) (max_tokens : Option Int)
    (model_params : Option (List (String × Json))) :
    Except EnforceError Json × AzureOpenAILLM :=
  (processResponse function
    (service (buildRequest self messages function max_tokens model_params)),
   self)

/-! Concrete fixtures used by the witness theorems, following the usage
example in the source docstring (lines 116-136) and the spec's examples. -/

/-- An adapter as the constructor produces it for a fully configured client,
with one default generation parameter (`temperature: 0.7`). -/
def llmD : AzureOpenAILLM :=
  { model_name := "gpt-3.5-turbo"
    client :=
      { azure_deployment := some "prod-gpt"
        azure_endpoint := some "https://example.openai.azure.com"
        api_version := some "2023-05-15"
        api_key := some "key" }
    default_model_params := [("temperature", Json.num 7 (-1))] }

/-- The parameter schema of the docstring example: an object with a required
`queries` property holding an array of strings. -/
def qkbSchema : Json :=
  Json.obj
    [("type", Json.str "object"),
     ("properties",
      Json.obj
        [("queries",
          Json.obj
            [("type", Json.str "array"),
             ("items", Json.obj [("type", Json.str "string")]),
             ("description", Json.str "List of queries to send to the search engine.")])]),
     ("required", Json.arr [Json.str "queries"])]

/-- The FunctionDescriptor of the docstring example. -/
def queryKb : Function :=
  { name := "query_kb"
    description := "Query search engine for relevant information"
    parameters := qkbSchema }

/-- A remote service that always answers with a single choice carrying a
structured call to `query_kb` with the given arguments string. -/
def serviceWith (arguments : String) : ChatRequest → ChatCompletion := fun _ =>
  { choices :=
      [{ message :=
          { function_call := some { name := "query_kb", arguments := arguments } } }] }

/-- The single-turn message history of the docstring example. -/
def msgsEx : List Message :=
  [{ role := "user", content := "I was wondering what is the capital of France?" }]

/-- Well-formed arguments string of the spec's round-trip example. -/
def okArgsText : String := "\x7b\"queries\": [\"capital of France\"]\x7d"

/-- Arguments string of the spec's schema-rejection example: valid JSON whose
`queries` value is a string, not an array. -/
def badSchemaText : String := "\x7b\"queries\": \"not-an-array\"\x7d"

/-- Arguments string of the spec's malformed-JSON example. -/
def badJsonText : String := "\x7bqueries: [oops]\x7d"

/-- The four required configuration values of the constructor. -/
inductive ConfigValue where
  | apiKey : ConfigValue
  | endpoint : ConfigValue
  | apiVersion : ConfigValue
  | deployment : ConfigValue
deriving DecidableEq, Fintype

/-- Environment variable designated for each configuration value. -/
def varOf : ConfigValue → String
  | ConfigValue.apiKey => "AZURE_OPENAI_API_KEY"
  | ConfigValue.endpoint => "AZURE_OPENAI_ENDPOINT"
  | ConfigValue.apiVersion => "OPENAI_API_VERSION"
  | ConfigValue.deployment => "AZURE_DEPLOYMENT"

/-- Constructor argument supplying each configuration value. -/
def argOf (d e a k : Option String) : ConfigValue → Option String
  | ConfigValue.apiKey => k
  | ConfigValue.endpoint => e
  | ConfigValue.apiVersion => a
  | ConfigValue.deployment => d

/-- A configuration value available neither as an explicit constructor
argument nor from its designated environment variable. -/
def missingBoth (env : List (String × PyVal)) (d e a k : Option String)
    (v : ConfigValue) : Prop :=
  argOf d e a k v = Option.none ∧ alookup env (varOf v) = Option.none

/-- The environment variable a constructor error names (the `KeyError` key,
or the variable named in the `EnvironmentError` message text). -/
def namedVar : PyError → String
  | PyError.keyError key => key
  | PyError.environmentError msg =>
    if msg = deploymentMsg then "AZURE_DEPLOYMENT"
    else if msg = apiKeyMsg then "AZURE_OPENAI_API_KEY"
    else if msg = endpointMsg then "AZURE_OPENAI_ENDPOINT"
    else if msg = versionMsg then "OPENAI_API_VERSION"
    else ""

/-- The error the constructor raises when exactly one configuration value is
unavailable: a `KeyError` from direct `os.environ` indexing for the first
three, the explicit `EnvironmentError` for the deployment. -/
def expectedErr : ConfigValue → PyError
  | ConfigValue.apiKey => PyError.keyError "AZURE_OPENAI_API_KEY"
  | ConfigValue.endpoint => PyError.keyError "AZURE_OPENAI_ENDPOINT"
  | ConfigValue.apiVersion => PyError.keyError "OPENAI_API_VERSION"
  | ConfigValue.deployment => PyError.environmentError deploymentMsg

/-- An environment configuring everything except the API key. -/
def envNoKey : List (String × PyVal) :=
  [("AZURE_OPENAI_ENDPOINT", PyVal.str "https://example.openai.azure.com"),
   ("OPENAI_API_VERSION", PyVal.str "2023-05-15"),
   ("AZURE_DEPLOYMENT", PyVal.str "prod-gpt")]

/-- An environment configuring all four values. -/
def envFull : List (String × PyVal) :=
  [("AZURE_OPENAI_API_KEY", PyVal.str "key"),
   ("AZURE_OPENAI_ENDPOINT", PyVal.str "https://example.openai.azure.com"),
   ("OPENAI_API_VERSION", PyVal.str "2023-05-15"),
   ("AZURE_DEPLOYMENT", PyVal.str "prod-gpt")]

/-- An environment configuring only the API version and the deployment, with
both the API key and the endpoint variables unset. -/
def envVersionDeployOnly : List (String × PyVal) :=
  [("OPENAI_API_VERSION", PyVal.str "2023-05-15"),
   ("AZURE_DEPLOYMENT", PyVal.str "prod-gpt")]

end Canopy

/-! Association-list lemmas supporting the parameter-merge theorem and the
constructor case analysis. -/

namespace Canopy

/-- A successful lookup exhibits a member of the list. -/
theorem mem_of_alookup_eq_some {α : Type} {l : List (String × α)} {k : String} {v : α}
    (h : alookup l k = some v) : (k, v) ∈ l := by
  induction l with
  | nil => simp [alookup] at h
  | cons p rest ih =>
    obtain ⟨k0, v0⟩ := p
    by_cases hk : k0 = k
    · subst hk
      simp [alookup] at h
      simp [h]
    · simp [alookup, hk] at h
      exact List.mem_cons_of_mem _ (ih h)

/-- Lookup of an absent key fails. -/
theorem alookup_eq_none_of_not_mem {α : Type} {l : List (String × α)} {k : String}
    (h : k ∉ l.map Prod.fst) : alookup l k = Option.none := by
  induction l with
  | nil => rfl
  | cons p rest ih =>
    obtain ⟨k0, v0⟩ := p
    have h1 : ¬k = k0 := fun hh => h (by simp [hh])
    have h2 : k ∉ rest.map Prod.fst := fun hh => h (by simp [hh])
    simp only [alookup]
    rw [if_neg (fun hh => h1 hh.symm)]
    exact ih h2

/-- Lookup after a single dict assignment: the assigned key now maps to the
assigned value, every other key is untouched. -/
theorem alookup_dictInsert {α : Type} (d : List (String × α)) (k : String) (v : α)
    (q : String) :
    alookup (dictInsert d k v) q = if k = q then some v else alookup d q := by
  induction d with
  | nil => simp [dictInsert, alookup]
  | cons p rest ih =>
    obtain ⟨k0, v0⟩ := p
    by_cases hk : k0 = k
    · subst hk
      simp only [dictInsert, if_pos rfl, alookup]
      by_cases hq : k0 = q <;> simp [hq]
    · simp only [dictInsert, if_neg hk, alookup]
      by_cases hq : k0 = q
      · subst hq
        simp only [if_pos rfl]
        exact (if_neg (fun hh => hk hh.symm)).symm
      · simp [hq, ih]

/-- Lookup after `d.update(o)` for an override dict with distinct keys (as
every Python dict has): the override value when `o` binds the key, the
original value otherwise. -/
theorem alookup_dictUpdate {α : Type} (d o : List (String × α)) (q : String)
    (hO : (o.map Prod.fst).Nodup) :
    alookup (dictUpdate d o) q =
      match alookup o q with
      | some v => some v
      | Option.none => alookup d q := by
  revert hO
  induction o generalizing d with
  | nil => intro _; simp [dictUpdate, alookup]
  | cons p rest ih =>
    intro hO
    obtain ⟨k0, v0⟩ := p
    have h1 : (rest.map Prod.fst).Nodup := (List.nodup_cons.mp (by simpa using hO)).2
    have h2 : k0 ∉ rest.map Prod.fst := (List.nodup_cons.mp (by simpa using hO)).1
    show alookup (dictUpdate (dictInsert d k0 v0) rest) q = _
    rw [ih _ h1]
    by_cases hk : k0 = q
    · subst hk
      rw [alookup_eq_none_of_not_mem h2]
      simp [alookup, alookup_dictInsert]
    · cases halk : alookup rest q with
      | none => simp [alookup, hk, halk, alookup_dictInsert]
      | some w => simp [alookup, hk, halk]

/-- Exhaustive case analysis of the constructor over environments whose
values are all strings, as `os.environ` guarantees: the run raises the
`KeyError` of the first absent variable among the API key, the endpoint and
the API version; otherwise, when the deployment is given neither as an
argument nor in the environment, the deployment `EnvironmentError`;
otherwise it returns an adapter. -/
theorem init_cases (env : List (String × PyVal)) (mn : String)
    (d e a k : Option String) (kw : List (String × Json))
    (hstr : ∀ p ∈ env, p.2 ≠ PyVal.none) :
    (alookup env "AZURE_OPENAI_API_KEY" = Option.none ∧
      AzureOpenAILLM.init env mn d e a k kw
        = Except.error (PyError.keyError "AZURE_OPENAI_API_KEY")) ∨
    (alookup env "AZURE_OPENAI_API_KEY" ≠ Option.none ∧
      alookup env "AZURE_OPENAI_ENDPOINT" = Option.none ∧
      AzureOpenAILLM.init env mn d e a k kw
        = Except.error (PyError.keyError "AZURE_OPENAI_ENDPOINT")) ∨
    (alookup env "AZURE_OPENAI_API_KEY" ≠ Option.none ∧
      alookup env "AZURE_OPENAI_ENDPOINT" ≠ Option.none ∧
      alookup env "OPENAI_API_VERSION" = Option.none ∧
      AzureOpenAILLM.init env mn d e a k kw
        = Except.error (PyError.keyError "OPENAI_API_VERSION")) ∨
    (alookup env "AZURE_OPENAI_API_KEY" ≠ Option.none ∧
      alookup env "AZURE_OPENAI_ENDPOINT" ≠ Option.none ∧
      alookup env "OPENAI_API_VERSION" ≠ Option.none ∧
      d = Option.none ∧ alookup env "AZURE_DEPLOYMENT" = Option.none ∧
      AzureOpenAILLM.init env mn d e a k kw
        = Except.error (PyError.environmentError deploymentMsg)) ∨
    (alookup env "AZURE_OPENAI_API_KEY" ≠ Option.none ∧
      alookup env "AZURE_OPENAI_ENDPOINT" ≠ Option.none ∧
      alookup env "OPENAI_API_VERSION" ≠ Option.none ∧
      (d ≠ Option.none ∨ alookup env "AZURE_DEPLOYMENT" ≠ Option.none) ∧
      ∃ llm, AzureOpenAILLM.init env mn d e a k kw = Except.ok llm) := by
  cases h1 : alookup env "AZURE_OPENAI_API_KEY" with
  | none =>
    exact Or.inl ⟨rfl, by simp [AzureOpenAILLM.init, environGetItem, h1]⟩
  | some v1 =>
    have hv1 : v1.isNone = false := by
      have := hstr _ (mem_of_alookup_eq_some h1)
      cases v1 <;> simp_all [PyVal.isNone]
    cases h2 : alookup env "AZURE_OPENAI_ENDPOINT" with
    | none =>
      exact Or.inr (Or.inl ⟨by simp [h1], rfl,
        by simp [AzureOpenAILLM.init, environGetItem, h1, hv1, h2]⟩)
    | some v2 =>
      have hv2 : v2.isNone = false := by
        have := hstr _ (mem_of_alookup_eq_some h2)
        cases v2 <;> simp_all [PyVal.isNone]
      cases h3 : alookup env "OPENAI_API_VERSION" with
      | none =>
        exact Or.inr (Or.inr (Or.inl ⟨by simp [h1], by simp [h2], rfl,
          by simp [AzureOpenAILLM.init, environGetItem, h1, hv1, h2, hv2, h3]⟩))
      | some v3 =>
        have hv3 : v3.isNone = false := by
          have := hstr _ (mem_of_alookup_eq_some h3)
          cases v3 <;> simp_all [PyVal.isNone]
        cases hd : d with
        | none =>
          cases h4 : alookup env "AZURE_DEPLOYMENT" with
          | none =>
            refine Or.inr (Or.inr (Or.inr (Or.inl
              ⟨by simp [h1], by simp [h2], by simp [h3], rfl, rfl, ?_⟩)))
            simp [AzureOpenAILLM.init, environGetItem, osGetenv, h1, hv1, h2, hv2, h3, hv3, h4]
          | some p =>
            have hp : p ≠ PyVal.none := hstr _ (mem_of_alookup_eq_some h4)
            obtain ⟨s, hs⟩ : ∃ s, p = PyVal.str s := by cases p <;> simp_all
            refine Or.inr (Or.inr (Or.inr (Or.inr
              ⟨by simp [h1], by simp [h2], by simp [h3], Or.inr (by simp [h4]), ?_⟩)))
            exact ⟨{ model_name := mn,
                     client := { azure_deployment := some s, azure_endpoint := e,
                                 api_version := a, api_key := k },
                     default_model_params := kw },
              by simp [AzureOpenAILLM.init, environGetItem, osGetenv, h1, hv1, h2, hv2,
                h3, hv3, h4, hs]⟩
        | some dd =>
          refine Or.inr (Or.inr (Or.inr (Or.inr
            ⟨by simp [h1], by simp [h2], by simp [h3], Or.inl (by simp), ?_⟩)))
          exact ⟨{ model_name := mn,
                   client := { azure_deployment := some dd, azure_endpoint := e,
                               api_version := a, api_key := k },
                   default_model_params := kw },
            by simp [AzureOpenAILLM.init, environGetItem, h1, hv1, h2, hv2, h3, hv3]⟩

end Canopy

/-! The claim theorems. -/

namespace Canopy

/-- Claim C1: for every call to `enforced_function_call` where the service
response's first choice carries a function call whose arguments string is
valid JSON and the deserialized mapping satisfies the function's parameter
schema, the call returns exactly that deserialized argument mapping,
unmodified. -/
theorem enforced_function_call_returns_validated_arguments
    (self : AzureOpenAILLM) (service : ChatRequest → ChatCompletion)
    (messages : List Message) (function : Function) (max_tokens : Option Int)
    (model_params : Option (List (String × Json)))
    (choice : Choice) (tail : List Choice) (fc : FunctionCallPayload) (args : Json)
    (hchoices :
      (service (buildRequest self messages function max_tokens model_params)).choices
        = choice :: tail)
    (hfc : choice.message.function_call = some fc)
    (hparse : pyJsonLoads fc.arguments = some args)
    (hvalid :
      jsonschemaValidate (2 * fc.arguments.length + 8) function.parameters args = true) :
    (enforced_function_call self service messages function max_tokens model_params).fst
      = Except.ok args := by
  simp [enforced_function_call, processResponse, hchoices, hfc, hparse, hvalid]

/-- Witness for C1: the spec's round-trip example. The service answers with
arguments `{"queries": ["capital of France"]}` for the `query_kb` descriptor
and the call returns exactly that mapping. -/
theorem enforced_function_call_returns_validated_arguments_witness :
    (enforced_function_call llmD (serviceWith okArgsText) msgsEx queryKb
        Option.none Option.none).fst
      = Except.ok (Json.obj [("queries", Json.arr [Json.str "capital of France"])]) :=
  enforced_function_call_returns_validated_arguments llmD (serviceWith okArgsText)
    msgsEx queryKb Option.none Option.none
    { message :=
        { function_call := some { name := "query_kb", arguments := okArgsText } } }
    [] { name := "query_kb", arguments := okArgsText }
    (Json.obj [("queries", Json.arr [Json.str "capital of France"])])
    rfl rfl rfl rfl

/-- Claim C2: for every call to `enforced_function_call` where the response's
arguments string parses as JSON but the deserialized mapping violates the
function's declared parameter schema, the call raises a schema-validation
error and returns no result; the mapping is never coerced or defaulted. -/
theorem enforced_function_call_schema_violation_error
    (self : AzureOpenAILLM) (service : ChatRequest → ChatCompletion)
    (messages : List Message) (function : Function) (max_tokens : Option Int)
    (model_params : Option (List (String × Json)))
    (choice : Choice) (tail : List Choice) (fc : FunctionCallPayload) (args : Json)
    (hchoices :
      (service (buildRequest self messages function max_tokens model_params)).choices
        = choice :: tail)
    (hfc : choice.message.function_call = some fc)
    (hparse : pyJsonLoads fc.arguments = some args)
    (hvalid :
      jsonschemaValidate (2 * fc.arguments.length + 8) function.parameters args = false) :
    (enforced_function_call self service messages function max_tokens model_params).fst
      = Except.error EnforceError.validationError := by
  simp [enforced_function_call, processResponse, hchoices, hfc, hparse, hvalid]

/-- Witness for C2: the spec's schema-rejection example. With arguments
`{"queries": "not-an-array"}` the call raises the validation error. -/
theorem enforced_function_call_schema_violation_error_witness :
    (enforced_function_call llmD (serviceWith badSchemaText) msgsEx queryKb
        Option.none Option.none).fst
      = Except.error EnforceError.validationError :=
  enforced_function_call_schema_violation_error llmD (serviceWith badSchemaText)
    msgsEx queryKb Option.none Option.none
    { message :=
        { function_call := some { name := "query_kb", arguments := badSchemaText } } }
    [] { name := "query_kb", arguments := badSchemaText }
    (Json.obj [("queries", Json.str "not-an-array")])
    rfl rfl rfl rfl

/-- Claim C3: for every call to `enforced_function_call` where the response's
function-call arguments string is not valid JSON, the call raises a parse
error that propagates to the caller; no retry or recovery is attempted and
no result is returned. -/
theorem enforced_function_call_malformed_json_error
    (self : AzureOpenAILLM) (service : ChatRequest → ChatCompletion)
    (messages : List Message) (function : Function) (max_tokens : Option Int)
    (model_params : Option (List (String × Json)))
    (choice : Choice) (tail : List Choice) (fc : FunctionCallPayload)
    (hchoices :
      (service (buildRequest self messages function max_tokens model_params)).choices
        = choice :: tail)
    (hfc : choice.message.function_call = some fc)
    (hparse : pyJsonLoads fc.arguments = Option.none) :
    (enforced_function_call self service messages function max_tokens model_params).fst
      = Except.error EnforceError.jsonDecodeError := by
  simp [enforced_function_call, processResponse, hchoices, hfc, hparse]

/-- Witness for C3: the spec's malformed-JSON example. With the invalid
arguments string `{queries: [oops]}` the call raises the decode error. -/
theorem enforced_function_call_malformed_json_error_witness :
    (enforced_function_call llmD (serviceWith badJsonText) msgsEx queryKb
        Option.none Option.none).fst
      = Except.error EnforceError.jsonDecodeError :=
  enforced_function_call_malformed_json_error llmD (serviceWith badJsonText)
    msgsEx queryKb Option.none Option.none
    { message :=
        { function_call := some { name := "query_kb", arguments := badJsonText } } }
    [] { name := "query_kb", arguments := badJsonText }
    rfl rfl rfl

/-- Claim C4: the effective generation parameters sent in the request equal
the stored defaults with every key present in the override mapping replaced
by the override value, every override key not among the defaults added, and
no other default key altered or removed. Stated per key: the effective value
of `q` is the override value when `q` is overridden, the default otherwise
(`none` meaning the key is absent). -/
theorem effective_params_override_defaults (self : AzureOpenAILLM)
    (messages : List Message) (function : Function) (max_tokens : Option Int)
    (O : List (String × Json)) (q : String)
    (hD : (self.default_model_params.map Prod.fst).Nodup)
    (hO : (O.map Prod.fst).Nodup) :
    alookup (buildRequest self messages function max_tokens (some O)).params q =
      match alookup O q with
      | some v => some v
      | Option.none => alookup self.default_model_params q := by
  show alookup (mergedParams self (some O)) q = _
  unfold mergedParams
  have hbase : alookup (dictUpdate [] self.default_model_params) q
      = alookup self.default_model_params q := by
    rw [alookup_dictUpdate _ _ _ hD]
    cases h : alookup self.default_model_params q <;> simp [alookup]
  by_cases hOe : O.isEmpty
  · have hnil : O = [] := List.isEmpty_iff.mp hOe
    subst hnil
    simpa [alookup] using hbase
  · simp only [hOe, if_false, Bool.false_eq_true]
    rw [alookup_dictUpdate _ _ _ hO]
    cases halk : alookup O q with
    | none => simpa using hbase
    | some w => simp

/-- Witness for C4: the spec's merge example, defaults `{temperature: 0.7}`
and overrides `{temperature: 0.2, top_p: 0.9}`; the effective temperature is
the override value 0.2. -/
theorem effective_params_override_defaults_witness :
    alookup
      (buildRequest llmD [] queryKb Option.none
        (some [("temperature", Json.num 2 (-1)), ("top_p", Json.num 9 (-1))])).params
      "temperature" = some (Json.num 2 (-1)) :=
  effective_params_override_defaults llmD [] queryKb Option.none
    [("temperature", Json.num 2 (-1)), ("top_p", Json.num 9 (-1))] "temperature"
    (by decide) (by decide)

/-- Claim C5: for every FunctionDescriptor and every message history, the
outbound request carries a forced-call directive equal to exactly
`{name: function.name}`, and its `functions` field is the single-element
list holding that function's descriptor. -/
theorem request_forced_call_directive (self : AzureOpenAILLM)
    (messages : List Message) (function : Function) (max_tokens : Option Int)
    (model_params : Option (List (String × Json))) :
    (buildRequest self messages function max_tokens model_params).function_call
      = { name := function.name } ∧
    (buildRequest self messages function max_tokens model_params).functions
      = [function.dict] :=
  ⟨rfl, rfl⟩

/-- Claim C8: for every message history, the serialized messages sent to the
remote service are the caller's sequence in the same order, one wire record
(role + content) per turn, with no turns added, dropped or reordered. -/
theorem request_preserves_message_order (self : AzureOpenAILLM)
    (messages : List Message) (function : Function) (max_tokens : Option Int)
    (model_params : Option (List (String × Json))) :
    (buildRequest self messages function max_tokens model_params).messages
      = messages.map Message.dict ∧
    (buildRequest self messages function max_tokens model_params).messages.length
      = messages.length :=
  ⟨rfl, by simp [buildRequest]⟩

/-- Claim C9: `enforced_function_call` mutates no persistent adapter state:
whatever override is supplied, the adapter after the call, and in particular
its stored default-parameters mapping, is the one from before the call. -/
theorem enforced_function_call_preserves_state (self : AzureOpenAILLM)
    (service : ChatRequest → ChatCompletion) (messages : List Message)
    (function : Function) (max_tokens : Option Int)
    (model_params : Option (List (String × Json))) :
    (enforced_function_call self service messages function max_tokens model_params).snd
      = self ∧
    (enforced_function_call self service messages function max_tokens
        model_params).snd.default_model_params = self.default_model_params :=
  ⟨rfl, rfl⟩

/-- Claim C6, as amended: whenever a required configuration value is
available neither as an explicit constructor argument nor from its
environment variable, construction fails with an error naming a required
configuration variable that is absent from the environment, and no adapter
(hence no client and no reachable `enforced_function_call`) is produced;
when every other value is available from the environment, the error names
exactly the missing value's variable. (The original claim's stronger
conclusion, that the error always names the missing value itself, is false
of the code: see the counterexample theorem.) -/
theorem construction_fail_fast_on_missing_config (env : List (String × PyVal))
    (mn : String) (d e a k : Option String) (kw : List (String × Json))
    (hstr : ∀ p ∈ env, p.2 ≠ PyVal.none)
    (v : ConfigValue) (hmiss : missingBoth env d e a k v) :
    (∃ err, AzureOpenAILLM.init env mn d e a k kw = Except.error err ∧
      alookup env (namedVar err) = Option.none) ∧
    ((∀ w : ConfigValue, w ≠ v → alookup env (varOf w) ≠ Option.none) →
      AzureOpenAILLM.init env mn d e a k kw = Except.error (expectedErr v)) := by
  obtain ⟨hmissArg, hmissEnv⟩ := hmiss
  rcases init_cases env mn d e a k kw hstr with
    ⟨h1, heq⟩ | ⟨hn1, h2, heq⟩ | ⟨hn1, hn2, h3, heq⟩ |
    ⟨hn1, hn2, hn3, hd, h4, heq⟩ | ⟨hn1, hn2, hn3, havail, llm, heq⟩
  · constructor
    · exact ⟨_, heq, h1⟩
    · intro hoth
      cases v with
      | apiKey => exact heq
      | endpoint => exact absurd h1 (hoth ConfigValue.apiKey (by simp))
      | apiVersion => exact absurd h1 (hoth ConfigValue.apiKey (by simp))
      | deployment => exact absurd h1 (hoth ConfigValue.apiKey (by simp))
  · constructor
    · exact ⟨_, heq, h2⟩
    · intro hoth
      cases v with
      | apiKey => exact absurd hmissEnv hn1
      | endpoint => exact heq
      | apiVersion => exact absurd h2 (hoth ConfigValue.endpoint (by simp))
      | deployment => exact absurd h2 (hoth ConfigValue.endpoint (by simp))
  · constructor
    · exact ⟨_, heq, h3⟩
    · intro hoth
      cases v with
      | apiKey => exact absurd hmissEnv hn1
      | endpoint => exact absurd hmissEnv hn2
      | apiVersion => exact heq
      | deployment => exact absurd h3 (hoth ConfigValue.apiVersion (by simp))
  · constructor
    · refine ⟨_, heq, ?_⟩
      have : namedVar (PyError.environmentError deploymentMsg) = "AZURE_DEPLOYMENT" := by
        simp [namedVar]
      rw [this]
      exact h4
    · intro hoth
      cases v with
      | apiKey => exact absurd hmissEnv hn1
      | endpoint => exact absurd hmissEnv hn2
      | apiVersion => exact absurd hmissEnv hn3
      | deployment => exact heq
  · exfalso
    cases v with
    | apiKey => exact hn1 hmissEnv
    | endpoint => exact hn2 hmissEnv
    | apiVersion => exact hn3 hmissEnv
    | deployment =>
      rcases havail with hda | hde
      · exact hda hmissArg
      · exact hde hmissEnv

/-- Counterexample for C6 as originally stated: the endpoint is available
from neither source (no argument, variable unset), so the claim's premise
holds for it, yet construction's error is `KeyError` for
`AZURE_OPENAI_API_KEY` — a variable whose value was available as the
explicit `azure_api_key` argument — and does not name the missing endpoint.
So the error does not name the missing value. -/
theorem construction_error_misnames_missing_endpoint :
    missingBoth envVersionDeployOnly Option.none Option.none Option.none
        (some "secret-key") ConfigValue.endpoint ∧
    AzureOpenAILLM.init envVersionDeployOnly "gpt-3.5-turbo"
        Option.none Option.none Option.none (some "secret-key") []
      = Except.error (PyError.keyError "AZURE_OPENAI_API_KEY") ∧
    namedVar (PyError.keyError "AZURE_OPENAI_API_KEY") ≠ varOf ConfigValue.endpoint ∧
    argOf Option.none Option.none Option.none (some "secret-key") ConfigValue.apiKey
      ≠ Option.none :=
  ⟨⟨rfl, by decide⟩, rfl, by decide, by decide⟩

/-- Witness for C6: the spec's fail-fast example. No credential is available
from argument or environment, everything else is configured, and
construction fails with the error naming `AZURE_OPENAI_API_KEY`. -/
theorem construction_fail_fast_on_missing_config_witness :
    AzureOpenAILLM.init envNoKey "gpt-3.5-turbo"
        Option.none Option.none Option.none Option.none []
      = Except.error (PyError.keyError "AZURE_OPENAI_API_KEY") :=
  (construction_fail_fast_on_missing_config envNoKey "gpt-3.5-turbo"
      Option.none Option.none Option.none Option.none []
      (by decide) ConfigValue.apiKey ⟨rfl, by decide⟩).2
    (by decide)

/-- Claim C7 (the code at the failing input): with an explicit API credential
supplied as a constructor argument and every other value configured in the
environment, construction still consults `os.environ` for
`AZURE_OPENAI_API_KEY` and fails with its `KeyError`, although the claim
(and the spec) say an explicit argument makes the environment variable
neither required nor consulted. -/
theorem construction_requires_env_despite_explicit_key :
    AzureOpenAILLM.init envNoKey "gpt-3.5-turbo"
        Option.none Option.none Option.none (some "secret-key") []
      = Except.error (PyError.keyError "AZURE_OPENAI_API_KEY") := rfl

/-- Claim C10: the three `EnvironmentError` guards for `AZURE_OPENAI_API_KEY`,
`AZURE_OPENAI_ENDPOINT` and `OPENAI_API_VERSION` are unreachable for every
environment whose values are strings (as `os.environ` values always are):
construction never returns those errors, and when the variable is absent the
direct indexing raises its `KeyError` before the `None`-check can run. -/
theorem env_guard_branches_unreachable (env : List (String × PyVal)) (mn : String)
    (d e a k : Option String) (kw : List (String × Json))
    (hstr : ∀ p ∈ env, p.2 ≠ PyVal.none) :
    AzureOpenAILLM.init env mn d e a k kw
        ≠ Except.error (PyError.environmentError apiKeyMsg) ∧
    AzureOpenAILLM.init env mn d e a k kw
        ≠ Except.error (PyError.environmentError endpointMsg) ∧
    AzureOpenAILLM.init env mn d e a k kw
        ≠ Except.error (PyError.environmentError versionMsg) ∧
    (alookup env "AZURE_OPENAI_API_KEY" = Option.none →
      AzureOpenAILLM.init env mn d e a k kw
        = Except.error (PyError.keyError "AZURE_OPENAI_API_KEY")) := by
  have hmsg1 : deploymentMsg ≠ apiKeyMsg := by decide
  have hmsg2 : deploymentMsg ≠ endpointMsg := by decide
  have hmsg3 : deploymentMsg ≠ versionMsg := by decide
  rcases init_cases env mn d e a k kw hstr with
    ⟨h1, heq⟩ | ⟨hn1, h2, heq⟩ | ⟨hn1, hn2, h3, heq⟩ |
    ⟨hn1, hn2, hn3, hd, h4, heq⟩ | ⟨hn1, hn2, hn3, havail, llm, heq⟩
  · exact ⟨by simp [heq], by simp [heq], by simp [heq], fun _ => heq⟩
  · exact ⟨by simp [heq], by simp [heq], by simp [heq], fun hh => absurd hh hn1⟩
  · exact ⟨by simp [heq], by simp [heq], by simp [heq], fun hh => absurd hh hn1⟩
  · exact ⟨by simp [heq, hmsg1], by simp [heq, hmsg2], by simp [heq, hmsg3],
      fun hh => absurd hh hn1⟩
  · exact ⟨by simp [heq], by simp [heq], by simp [heq], fun hh => absurd hh hn1⟩

/-- Witness for C10: on a fully configured all-string environment the
constructor does not return the API-key `EnvironmentError`. -/
theorem env_guard_branches_unreachable_witness :
    AzureOpenAILLM.init envFull "gpt-3.5-turbo"
        Option.none Option.none Option.none Option.none []
      ≠ Except.error (PyError.environmentError apiKeyMsg) :=
  (env_guard_branches_unreachable envFull "gpt-3.5-turbo"
    Option.none Option.none Option.none Option.none [] (by decide)).1

end Canopy
